import Mathlib

/-!
Shallow embedding of the coffee-order program (src/main.py): the immutable
CoffeeOrder value with its derived price and description, and the mutable
CoffeeOrderBuilder with validating setters, modelled as explicit state
passing.  Python dictionaries become association lists, the Python set of
syrup names becomes a duplicate-free list (insertion adds at the end only
when the name is absent, mirroring set.add), money becomes ℚ, and a raised
ValueError becomes a returned error-message string.
-/

/-- Dictionary access d[key] on a string-keyed price table: some value when
the key is present, none for a KeyError. -/
def dictGet (key : String) : List (String × ℚ) → Option ℚ
  | [] => none
  | (k, v) :: rest => if key = k then some v else dictGet key rest

/-- Python str.strip: remove leading and trailing whitespace. -/
def strip (s : String) : String :=
  ⟨((s.data.dropWhile Char.isWhitespace).reverse.dropWhile Char.isWhitespace).reverse⟩

/-- CoffeeOrderBuilder.BASE_PRICES. -/
def BASE_PRICES : List (String × ℚ) :=
  [("espresso", 200), ("americano", 250), ("latte", 300), ("cappuccino", 320)]

/-- CoffeeOrderBuilder.SIZE_MULTIPLIERS (1.0, 1.2, 1.4 as exact rationals). -/
def SIZE_MULTIPLIERS : List (String × ℚ) :=
  [("small", 1), ("medium", 6/5), ("large", 7/5)]

/-- CoffeeOrderBuilder.MILK_PRICES. -/
def MILK_PRICES : List (String × ℚ) :=
  [("whole", 30), ("skim", 30), ("oat", 60), ("soy", 50), ("none", 0)]

/-- CoffeeOrderBuilder.SYRUP_PRICE. -/
def SYRUP_PRICE : ℚ := 40

/-- CoffeeOrderBuilder.ICE_PRICE. -/
def ICE_PRICE : ℚ := 20

/-- CoffeeOrderBuilder.MAX_SYRUPS. -/
def MAX_SYRUPS : Nat := 4

/-- CoffeeOrderBuilder.MAX_SUGAR. -/
def MAX_SUGAR : Int := 5

/-- CoffeeOrder._calculate_price: three dictionary lookups (each a possible
KeyError, hence Option), then
total = (base_price + milk_price + syrup_price) * size_multiplier + ice_price. -/
def calculate_price (base size milk : String) (syrups : List String)
    (iced : Bool) : Option ℚ :=
  match dictGet base BASE_PRICES, dictGet size SIZE_MULTIPLIERS,
      dictGet milk MILK_PRICES with
  | some base_price, some size_multiplier, some milk_price =>
      let syrup_price : ℚ := SYRUP_PRICE * (syrups.length : ℚ)
      let ice_price : ℚ := if iced then ICE_PRICE else 0
      some ((base_price + milk_price + syrup_price) * size_multiplier + ice_price)
  | _, _, _ => none

/-- CoffeeOrder._generate_description: the extra parts collected in source
order, then either the empty string or size, base and the joined parts. -/
def generate_description (base size milk : String) (syrups : List String)
    (sugar : Int) (iced : Bool) : String :=
  let extra_parts : List String :=
    (if milk ≠ "none" then ["with " ++ milk ++ " milk"] else []) ++
    (if syrups ≠ [] then ["+" ++ String.intercalate ", " syrups] else []) ++
    (if iced then ["(iced)"] else []) ++
    (if sugar > 0 then [toString sugar ++ " tsp sugar"] else [])
  if extra_parts = [] then ""
  else size ++ " " ++ base ++ " " ++ strip (String.intercalate " " extra_parts)

/-- CoffeeOrder: the immutable order value; price and description are
computed once at construction and stored. -/
structure CoffeeOrder where
  base : String
  size : String
  milk : String
  syrups : List String
  sugar : Int
  iced : Bool
  price : ℚ
  description : String
deriving DecidableEq, Repr

/-- CoffeeOrder.__init__: stores the selections and computes price and
description; none when the price computation hits a KeyError. -/
def mkCoffeeOrder (base size milk : String) (syrups : List String)
    (sugar : Int) (iced : Bool) : Option CoffeeOrder :=
  (calculate_price base size milk syrups iced).map fun price =>
    { base := base, size := size, milk := milk, syrups := syrups,
      sugar := sugar, iced := iced, price := price,
      description := generate_description base size milk syrups sugar iced }

/-- Format a price with exactly two decimal places, as Python "%.2f". -/
def formatPrice2 (q : ℚ) : String :=
  let cents : Int := (q * 100 + 1/2).floor
  let n : Nat := cents.natAbs
  (if cents < 0 then "-" else "") ++ toString (n / 100) ++ "." ++
    (if n % 100 < 10 then "0" else "") ++ toString (n % 100)

/-- CoffeeOrder.__str__: the formatted price with RUB when the description is
blank, otherwise the description. -/
def strOrder (o : CoffeeOrder) : String :=
  if strip o.description = "" then formatPrice2 o.price ++ " RUB"
  else o.description

/-- CoffeeOrderBuilder state: base and size start unset, milk "none",
syrups an empty set (here: duplicate-free list), sugar 0, iced false. -/
structure Builder where
  base : Option String
  size : Option String
  milk : String
  syrups : List String
  sugar : Int
  iced : Bool
deriving DecidableEq, Repr

/-- CoffeeOrderBuilder.__init__. -/
def initBuilder : Builder :=
  { base := none, size := none, milk := "none", syrups := [], sugar := 0,
    iced := false }

/-- Each mutating call yields the post-call state together with an optional
raised error message (none = the call returned the builder normally). -/
def set_base (b : Builder) (base : String) : Builder × Option String :=
  if (dictGet base BASE_PRICES).isNone then
    (b, some ("Base must be one of: " ++
      String.intercalate ", " (BASE_PRICES.map Prod.fst)))
  else ({ b with base := some base }, none)

/-- CoffeeOrderBuilder.set_size. -/
def set_size (b : Builder) (size : String) : Builder × Option String :=
  if (dictGet size SIZE_MULTIPLIERS).isNone then
    (b, some ("Size must be one of: " ++
      String.intercalate ", " (SIZE_MULTIPLIERS.map Prod.fst)))
  else ({ b with size := some size }, none)

/-- CoffeeOrderBuilder.set_milk. -/
def set_milk (b : Builder) (milk : String) : Builder × Option String :=
  if (dictGet milk MILK_PRICES).isNone then
    (b, some ("Milk must be one of: " ++
      String.intercalate ", " (MILK_PRICES.map Prod.fst)))
  else ({ b with milk := milk }, none)

/-- CoffeeOrderBuilder.add_syrup: the limit check compares the current
distinct count against MAX_SYRUPS before the set insertion; the insertion
itself is a no-op when the name is already present. -/
def add_syrup (b : Builder) (name : String) : Builder × Option String :=
  if MAX_SYRUPS ≤ b.syrups.length then
    (b, some ("Maximum " ++ toString MAX_SYRUPS ++ " syrups allowed"))
  else
    ({ b with syrups := if name ∈ b.syrups then b.syrups else b.syrups ++ [name] },
      none)

/-- CoffeeOrderBuilder.set_sugar. -/
def set_sugar (b : Builder) (teaspoons : Int) : Builder × Option String :=
  if ¬ (0 ≤ teaspoons ∧ teaspoons ≤ MAX_SUGAR) then
    (b, some ("Sugar must be between 0 and " ++ toString MAX_SUGAR))
  else ({ b with sugar := teaspoons }, none)

/-- CoffeeOrderBuilder.set_iced (never fails). -/
def set_iced (b : Builder) (iced : Bool) : Builder × Option String :=
  ({ b with iced := iced }, none)

/-- CoffeeOrderBuilder.clear_extras (never fails). -/
def clear_extras (b : Builder) : Builder × Option String :=
  ({ b with milk := "none", syrups := [], sugar := 0, iced := false }, none)

/-- CoffeeOrderBuilder.build: required-field checks, then the CoffeeOrder
constructor on a snapshot of the current state (tuple(self.syrups) copies
the set; here the syrup list is passed by value). -/
def build (b : Builder) : Except String CoffeeOrder :=
  match b.base with
  | none => Except.error "Base is required"
  | some base =>
    match b.size with
    | none => Except.error "Size is required"
    | some size =>
      match mkCoffeeOrder base size b.milk b.syrups b.sugar b.iced with
      | some o => Except.ok o
      | none => Except.error "KeyError"

/-- One mutating builder call, for reasoning about call sequences. -/
inductive Op where
  | opSetBase (s : String)
  | opSetSize (s : String)
  | opSetMilk (s : String)
  | opAddSyrup (s : String)
  | opSetSugar (n : Int)
  | opSetIced (f : Bool)
  | opClearExtras
deriving DecidableEq, Repr

/-- Dispatch one call against the builder state. -/
def applyOp (b : Builder) : Op → Builder × Option String
  | Op.opSetBase s => set_base b s
  | Op.opSetSize s => set_size b s
  | Op.opSetMilk s => set_milk b s
  | Op.opAddSyrup s => add_syrup b s
  | Op.opSetSugar n => set_sugar b n
  | Op.opSetIced f => set_iced b f
  | Op.opClearExtras => clear_extras b

/-- The builder state after a sequence of calls (a failed call leaves the
state as it was, so this also covers chains that stop at a raise). -/
def applyOps (b : Builder) (ops : List Op) : Builder :=
  ops.foldl (fun s op => (applyOp s op).1) b

/-- The pattern occurs somewhere inside the string. -/
def containsStr (s pat : String) : Prop :=
  ∃ pre post, s = pre ++ pat ++ post

/-- The order value that CoffeeOrder.__init__ stores for a given price. -/
def orderRecord (base size milk : String) (syrups : List String) (sugar : Int)
    (iced : Bool) (price : ℚ) : CoffeeOrder :=
  { base := base, size := size, milk := milk, syrups := syrups, sugar := sugar,
    iced := iced, price := price,
    description := generate_description base size milk syrups sugar iced }

/-- Builder state reached by the chain setBase latte, setSize small, then
four distinct addSyrup calls: the syrup set holds 4 distinct names. -/
def b4syr : Builder := applyOps initBuilder
  [Op.opSetBase "latte", Op.opSetSize "small", Op.opAddSyrup "a",
   Op.opAddSyrup "b", Op.opAddSyrup "c", Op.opAddSyrup "d"]

/-- Builder state reached by the chain of the worked example: latte, medium,
oat milk, one vanilla syrup, sugar 2, iced. -/
def exB2 : Builder := applyOps initBuilder
  [Op.opSetBase "latte", Op.opSetSize "medium", Op.opSetMilk "oat",
   Op.opAddSyrup "vanilla", Op.opSetSugar 2, Op.opSetIced true]

/-- The same state written out field by field. -/
def exB2val : Builder :=
  { base := some "latte", size := some "medium", milk := "oat",
    syrups := ["vanilla"], sugar := 2, iced := true }

/-- The order the worked example builds: price 500, full description. -/
def c2order : CoffeeOrder :=
  { base := "latte", size := "medium", milk := "oat", syrups := ["vanilla"],
    sugar := 2, iced := true, price := 500,
    description := "medium latte with oat milk +vanilla (iced) 2 tsp sugar" }

/-- Builder with only espresso and small set, written out field by field. -/
def bEspVal : Builder :=
  { base := some "espresso", size := some "small", milk := "none",
    syrups := [], sugar := 0, iced := false }

/-- The bare espresso order: price 200, empty description. -/
def espOrder : CoffeeOrder :=
  { base := "espresso", size := "small", milk := "none", syrups := [],
    sugar := 0, iced := false, price := 200, description := "" }

/-- The iced espresso order: price 220. -/
def espIcedOrder : CoffeeOrder :=
  { base := "espresso", size := "small", milk := "none", syrups := [],
    sugar := 0, iced := true, price := 220,
    description := "small espresso (iced)" }

/-- Key-validity invariant that every builder reachable through the public
calls satisfies: a set base or size is a catalog key, and milk always is. -/
def BuilderInv (b : Builder) : Prop :=
  (∀ x, b.base = some x → (dictGet x BASE_PRICES).isSome) ∧
  (∀ x, b.size = some x → (dictGet x SIZE_MULTIPLIERS).isSome) ∧
  (dictGet b.milk MILK_PRICES).isSome

theorem calculate_price_eq (base size milk : String) (syrups : List String)
    (iced : Bool) (bp m mp : ℚ)
    (hb : dictGet base BASE_PRICES = some bp)
    (hs : dictGet size SIZE_MULTIPLIERS = some m)
    (hm : dictGet milk MILK_PRICES = some mp) :
    calculate_price base size milk syrups iced =
      some ((bp + mp + SYRUP_PRICE * (syrups.length : ℚ)) * m +
        (if iced then ICE_PRICE else 0)) := by
  simp [calculate_price, hb, hs, hm]

theorem mkCoffeeOrder_eq (base size milk : String) (syrups : List String)
    (sugar : Int) (iced : Bool) (p : ℚ)
    (hp : calculate_price base size milk syrups iced = some p) :
    mkCoffeeOrder base size milk syrups sugar iced =
      some (orderRecord base size milk syrups sugar iced p) := by
  simp [mkCoffeeOrder, orderRecord, hp]

theorem build_eq (b : Builder) (base size : String) (o : CoffeeOrder)
    (hb : b.base = some base) (hs : b.size = some size)
    (ho : mkCoffeeOrder base size b.milk b.syrups b.sugar b.iced = some o) :
    build b = Except.ok o := by
  simp [build, hb, hs, ho]

theorem dictGet_base_cases {x : String} {v : ℚ}
    (h : dictGet x BASE_PRICES = some v) :
    v = 200 ∨ v = 250 ∨ v = 300 ∨ v = 320 := by
  simp only [BASE_PRICES, dictGet] at h
  split_ifs at h <;> simp_all

theorem dictGet_size_cases {x : String} {v : ℚ}
    (h : dictGet x SIZE_MULTIPLIERS = some v) :
    v = 1 ∨ v = 6/5 ∨ v = 7/5 := by
  simp only [SIZE_MULTIPLIERS, dictGet] at h
  split_ifs at h <;> simp_all

theorem dictGet_milk_cases {x : String} {v : ℚ}
    (h : dictGet x MILK_PRICES = some v) :
    v = 30 ∨ v = 60 ∨ v = 50 ∨ v = 0 := by
  simp only [MILK_PRICES, dictGet] at h
  split_ifs at h <;> simp_all

theorem base_price_lb {x : String} {v : ℚ}
    (h : dictGet x BASE_PRICES = some v) : 200 ≤ v := by
  rcases dictGet_base_cases h with rfl | rfl | rfl | rfl <;> norm_num

theorem size_mult_lb {x : String} {v : ℚ}
    (h : dictGet x SIZE_MULTIPLIERS = some v) : 1 ≤ v := by
  rcases dictGet_size_cases h with rfl | rfl | rfl <;> norm_num

theorem milk_price_lb {x : String} {v : ℚ}
    (h : dictGet x MILK_PRICES = some v) : 0 ≤ v := by
  rcases dictGet_milk_cases h with rfl | rfl | rfl | rfl <;> norm_num

theorem builderInv_init : BuilderInv initBuilder := by
  refine ⟨?_, ?_, ?_⟩ <;> simp [initBuilder, dictGet, MILK_PRICES]

theorem builderInv_applyOp (b : Builder) (op : Op) (h : BuilderInv b) :
    BuilderInv (applyOp b op).1 := by
  obtain ⟨h1, h2, h3⟩ := h
  cases op with
  | opSetBase s =>
    simp only [applyOp, set_base]
    split_ifs with hc
    · exact ⟨h1, h2, h3⟩
    · refine ⟨?_, h2, h3⟩
      intro x hx
      obtain rfl : s = x := Option.some.inj hx
      rcases hd : dictGet s BASE_PRICES with _ | v
      · exact absurd (by simp [hd]) hc
      · simp [hd]
  | opSetSize s =>
    simp only [applyOp, set_size]
    split_ifs with hc
    · exact ⟨h1, h2, h3⟩
    · refine ⟨h1, ?_, h3⟩
      intro x hx
      obtain rfl : s = x := Option.some.inj hx
      rcases hd : dictGet s SIZE_MULTIPLIERS with _ | v
      · exact absurd (by simp [hd]) hc
      · simp [hd]
  | opSetMilk s =>
    simp only [applyOp, set_milk]
    split_ifs with hc
    · exact ⟨h1, h2, h3⟩
    · refine ⟨h1, h2, ?_⟩
      rcases hd : dictGet s MILK_PRICES with _ | v
      · exact absurd (by simp [hd]) hc
      · simp [hd]
  | opAddSyrup s =>
    simp only [applyOp, add_syrup]
    split <;> exact ⟨h1, h2, h3⟩
  | opSetSugar n =>
    simp only [applyOp, set_sugar]
    split <;> exact ⟨h1, h2, h3⟩
  | opSetIced f =>
    exact ⟨h1, h2, h3⟩
  | opClearExtras =>
    exact ⟨h1, h2, by simp [applyOp, clear_extras, dictGet, MILK_PRICES]⟩

theorem builderInv_applyOps (b : Builder) (ops : List Op) (h : BuilderInv b) :
    BuilderInv (applyOps b ops) := by
  induction ops generalizing b with
  | nil => exact h
  | cons op rest ih => exact ih ((applyOp b op).1) (builderInv_applyOp b op h)

theorem build_ok_of_keys (b : Builder) (base size : String)
    (hb : b.base = some base) (hs : b.size = some size)
    (hkb : (dictGet base BASE_PRICES).isSome)
    (hks : (dictGet size SIZE_MULTIPLIERS).isSome)
    (hkm : (dictGet b.milk MILK_PRICES).isSome) :
    ∃ p, calculate_price base size b.milk b.syrups b.iced = some p ∧
      build b = Except.ok (orderRecord base size b.milk b.syrups b.sugar b.iced p) := by
  obtain ⟨bp, hbp⟩ := Option.isSome_iff_exists.mp hkb
  obtain ⟨m, hm⟩ := Option.isSome_iff_exists.mp hks
  obtain ⟨mp, hmp⟩ := Option.isSome_iff_exists.mp hkm
  refine ⟨_, calculate_price_eq base size b.milk b.syrups b.iced bp m mp hbp hm hmp, ?_⟩
  exact build_eq b base size _ hb hs
    (mkCoffeeOrder_eq base size b.milk b.syrups b.sugar b.iced _
      (calculate_price_eq base size b.milk b.syrups b.iced bp m mp hbp hm hmp))

theorem build_ok_spec (b : Builder) (o : CoffeeOrder)
    (h : build b = Except.ok o) :
    b.base = some o.base ∧ b.size = some o.size ∧ o.milk = b.milk ∧
    o.syrups = b.syrups ∧ o.sugar = b.sugar ∧ o.iced = b.iced ∧
    calculate_price o.base o.size o.milk o.syrups o.iced = some o.price ∧
    o.description =
      generate_description o.base o.size o.milk o.syrups o.sugar o.iced := by
  cases hb : b.base with
  | none => simp [build, hb] at h
  | some base =>
    cases hs : b.size with
    | none => simp [build, hb, hs] at h
    | some size =>
      cases hmk : mkCoffeeOrder base size b.milk b.syrups b.sugar b.iced with
      | none => simp [build, hb, hs, hmk] at h
      | some o2 =>
        have ho : o2 = o := by simpa [build, hb, hs, hmk] using h
        subst ho
        unfold mkCoffeeOrder at hmk
        cases hcp : calculate_price base size b.milk b.syrups b.iced with
        | none => rw [hcp] at hmk; cases hmk
        | some p =>
          rw [hcp] at hmk
          simp only [Option.map_some', Option.some.injEq] at hmk
          subst hmk
          exact ⟨rfl, rfl, rfl, rfl, rfl, rfl, hcp, rfl⟩

theorem generate_description_c2 :
    generate_description "latte" "medium" "oat" ["vanilla"] 2 true =
      "medium latte with oat milk +vanilla (iced) 2 tsp sugar" := by decide

theorem calculate_price_c2 :
    calculate_price "latte" "medium" "oat" ["vanilla"] true = some 500 := by
  rw [calculate_price_eq "latte" "medium" "oat" ["vanilla"] true 300 (6/5) 60
    rfl rfl rfl]
  norm_num [SYRUP_PRICE, ICE_PRICE]

theorem build_exB2 : build exB2 = Except.ok c2order := by
  have h1 : exB2 = exB2val := by decide
  rw [h1]
  rw [build_eq exB2val "latte" "medium" _ rfl rfl
    (mkCoffeeOrder_eq "latte" "medium" "oat" ["vanilla"] 2 true 500
      calculate_price_c2)]
  have h3 : orderRecord "latte" "medium" "oat" ["vanilla"] 2 true 500 =
      c2order := by
    simp only [orderRecord, c2order]
    rw [generate_description_c2]
  rw [h3]

theorem calculate_price_esp_false :
    calculate_price "espresso" "small" "none" [] false = some 200 := by
  rw [calculate_price_eq "espresso" "small" "none" [] false 200 1 0 rfl rfl rfl]
  norm_num [SYRUP_PRICE, ICE_PRICE]

theorem calculate_price_esp_true :
    calculate_price "espresso" "small" "none" [] true = some 220 := by
  rw [calculate_price_eq "espresso" "small" "none" [] true 200 1 0 rfl rfl rfl]
  norm_num [SYRUP_PRICE, ICE_PRICE]

theorem build_bEspVal : build bEspVal = Except.ok espOrder := by
  rw [build_eq bEspVal "espresso" "small" _ rfl rfl
    (mkCoffeeOrder_eq "espresso" "small" "none" [] 0 false 200
      calculate_price_esp_false)]
  have h3 : orderRecord "espresso" "small" "none" [] 0 false 200 = espOrder := by
    unfold orderRecord espOrder
    rw [(by decide : generate_description "espresso" "small" "none" [] 0 false = "")]
  rw [h3]

/-- The bare espresso builder with the iced flag flipped on. -/
def bEspIcedVal : Builder :=
  { base := some "espresso", size := some "small", milk := "none",
    syrups := [], sugar := 0, iced := true }

theorem build_bEspIcedVal : build bEspIcedVal = Except.ok espIcedOrder := by
  rw [build_eq bEspIcedVal "espresso" "small" _ rfl rfl
    (mkCoffeeOrder_eq "espresso" "small" "none" [] 0 true 220
      calculate_price_esp_true)]
  have h3 : orderRecord "espresso" "small" "none" [] 0 true 220 =
      espIcedOrder := by
    unfold orderRecord espIcedOrder
    rw [(by decide : generate_description "espresso" "small" "none" [] 0 true =
      "small espresso (iced)")]
  rw [h3]

/-- Claim C1, as stated, is false on the code: with exactly 4 distinct syrup
names present, re-adding the already-present name "a" raises the limit error
and does not succeed, because add_syrup checks the count before inserting
and ignores whether the name is present. -/
theorem c1_counterexample :
    b4syr.syrups = ["a", "b", "c", "d"] ∧ "a" ∈ b4syr.syrups ∧
    (add_syrup b4syr "a").2 = some "Maximum 4 syrups allowed" := by decide

/-- Claim C1 amended: when the distinct count is at the maximum, addSyrup
fails with the limit error for every name, present or not, leaving the state
unchanged; re-adding a present name succeeds (set unchanged) only while the
count is below the maximum; and the limit error occurs only at the maximum. -/
theorem c1_amended_limit_check (b : Builder) (name : String) :
    (MAX_SYRUPS ≤ b.syrups.length →
      add_syrup b name = (b, some "Maximum 4 syrups allowed")) ∧
    (b.syrups.length < MAX_SYRUPS → name ∈ b.syrups →
      add_syrup b name = (b, none)) ∧
    (∀ e, (add_syrup b name).2 = some e → MAX_SYRUPS ≤ b.syrups.length) := by
  refine ⟨?_, ?_, ?_⟩
  · intro h
    unfold add_syrup
    rw [if_pos h]
    have hmsg : ("Maximum " ++ toString MAX_SYRUPS ++ " syrups allowed") =
        "Maximum 4 syrups allowed" := by decide
    rw [hmsg]
  · intro h1 h2
    unfold add_syrup
    rw [if_neg (not_le.mpr h1), if_pos h2]
  · intro e he
    by_contra hlt
    push_neg at hlt
    unfold add_syrup at he
    rw [if_neg (not_le.mpr hlt)] at he
    cases he

/-- Witness for C1 amended: the concrete at-limit builder with "a" present. -/
theorem c1_witness :
    add_syrup b4syr "a" = (b4syr, some "Maximum 4 syrups allowed") :=
  (c1_amended_limit_check b4syr "a").1 (by decide)

/-- Claim C2, as stated, is false on the code: the worked example builds an
order whose price is 500, not 512 (the formula (300+60+40)*1.2+20 equals
500). -/
theorem c2_counterexample :
    build exB2 = Except.ok c2order ∧ c2order.price = 500 ∧
    c2order.price ≠ 512 :=
  ⟨build_exB2, rfl, by norm_num [c2order]⟩

/-- Claim C2 amended: the worked example yields price
(300+60+40)*1.2+20 = 500.0, and its rendered text contains "medium latte",
"oat", "vanilla" and "(iced)". -/
theorem c2_amended_price_500 :
    build exB2 = Except.ok c2order ∧ c2order.price = 500 ∧
    containsStr (strOrder c2order) "medium latte" ∧
    containsStr (strOrder c2order) "oat" ∧
    containsStr (strOrder c2order) "vanilla" ∧
    containsStr (strOrder c2order) "(iced)" := by
  have hso : strOrder c2order =
      "medium latte with oat milk +vanilla (iced) 2 tsp sugar" := by
    unfold strOrder
    rw [if_neg (by decide)]
    exact rfl
  refine ⟨build_exB2, rfl, ?_, ?_, ?_, ?_⟩
  · exact ⟨"", " with oat milk +vanilla (iced) 2 tsp sugar", by rw [hso]; exact rfl⟩
  · exact ⟨"medium latte with ", " milk +vanilla (iced) 2 tsp sugar", by rw [hso]; exact rfl⟩
  · exact ⟨"medium latte with oat milk +", " (iced) 2 tsp sugar", by rw [hso]; exact rfl⟩
  · exact ⟨"medium latte with oat milk +vanilla ", " 2 tsp sugar", by rw [hso]; exact rfl⟩

/-- Claim C3: every order built from valid selections has price
(basePrice + milkPrice + syrupUnit * count) * sizeMultiplier plus the flat
ice surcharge when iced, with the stated catalog values; the sugar argument
(universally quantified here) does not appear in the price. -/
theorem c3_price_formula (base size milk : String) (syrups : List String)
    (sugar : Int) (iced : Bool) (bp m mp : ℚ) (o : CoffeeOrder)
    (hb : dictGet base BASE_PRICES = some bp)
    (hs : dictGet size SIZE_MULTIPLIERS = some m)
    (hm : dictGet milk MILK_PRICES = some mp)
    (ho : mkCoffeeOrder base size milk syrups sugar iced = some o) :
    o.price = (bp + mp + SYRUP_PRICE * (syrups.length : ℚ)) * m +
      (if iced then ICE_PRICE else 0) ∧
    dictGet "espresso" BASE_PRICES = some 200 ∧
    dictGet "americano" BASE_PRICES = some 250 ∧
    dictGet "latte" BASE_PRICES = some 300 ∧
    dictGet "cappuccino" BASE_PRICES = some 320 ∧
    dictGet "small" SIZE_MULTIPLIERS = some 1 ∧
    dictGet "medium" SIZE_MULTIPLIERS = some (6/5) ∧
    dictGet "large" SIZE_MULTIPLIERS = some (7/5) ∧
    dictGet "whole" MILK_PRICES = some 30 ∧
    dictGet "skim" MILK_PRICES = some 30 ∧
    dictGet "oat" MILK_PRICES = some 60 ∧
    dictGet "soy" MILK_PRICES = some 50 ∧
    dictGet "none" MILK_PRICES = some 0 ∧
    SYRUP_PRICE = 40 ∧ ICE_PRICE = 20 := by
  rw [mkCoffeeOrder_eq base size milk syrups sugar iced _
    (calculate_price_eq base size milk syrups iced bp m mp hb hs hm)] at ho
  obtain rfl := Option.some.inj ho
  exact ⟨rfl, rfl, rfl, rfl, rfl, rfl, rfl, rfl, rfl, rfl, rfl, rfl, rfl,
    rfl, rfl⟩

/-- Witness for C3 at the worked example (price 500). -/
theorem c3_witness :
    c2order.price = (300 + 60 + SYRUP_PRICE * ((["vanilla"] : List String).length : ℚ)) *
      (6/5) + (if true then ICE_PRICE else 0) :=
  (c3_price_formula "latte" "medium" "oat" ["vanilla"] 2 true 300 (6/5) 60
    c2order rfl rfl rfl
    (by rw [mkCoffeeOrder_eq "latte" "medium" "oat" ["vanilla"] 2 true 500
          calculate_price_c2]
        simp only [orderRecord]
        rw [generate_description_c2]
        exact rfl)).1

/-- Claim C4: for valid selections the price is strictly positive, and with
all other fields fixed the iced price strictly exceeds the non-iced price. -/
theorem c4_price_positive_iced_monotone (base size milk : String)
    (syrups : List String) (sugar : Int) (bp m mp : ℚ)
    (hb : dictGet base BASE_PRICES = some bp)
    (hs : dictGet size SIZE_MULTIPLIERS = some m)
    (hm : dictGet milk MILK_PRICES = some mp)
    (hsy : syrups.length ≤ MAX_SYRUPS)
    (h0 : 0 ≤ sugar) (h5 : sugar ≤ MAX_SUGAR)
    (pF pT : ℚ)
    (hpF : calculate_price base size milk syrups false = some pF)
    (hpT : calculate_price base size milk syrups true = some pT) :
    0 < pF ∧ 0 < pT ∧ pF < pT := by
  rw [calculate_price_eq base size milk syrups false bp m mp hb hs hm] at hpF
  rw [calculate_price_eq base size milk syrups true bp m mp hb hs hm] at hpT
  norm_num [SYRUP_PRICE, ICE_PRICE] at hpF hpT
  subst hpF
  subst hpT
  have hbp := base_price_lb hb
  have hm1 := size_mult_lb hs
  have hmp0 := milk_price_lb hm
  have hl : (0:ℚ) ≤ 40 * (syrups.length : ℚ) := by positivity
  have hsum : (200:ℚ) ≤ bp + mp + 40 * (syrups.length : ℚ) := by linarith
  have key : (200:ℚ) * 1 ≤ (bp + mp + 40 * (syrups.length : ℚ)) * m :=
    mul_le_mul hsum hm1 (by norm_num) (by linarith)
  refine ⟨by nlinarith [key], by nlinarith [key], by nlinarith [key]⟩

/-- Witness for C4 at the bare espresso order: 200 without ice, 220 iced. -/
theorem c4_witness : (0:ℚ) < 200 ∧ (0:ℚ) < 220 ∧ (200:ℚ) < 220 :=
  c4_price_positive_iced_monotone "espresso" "small" "none" [] 0 200 1 0
    rfl rfl rfl (by decide) (by decide) (by decide) 200 220
    calculate_price_esp_false calculate_price_esp_true

/-- Claim C5: on every builder reachable through the public calls, build
fails exactly when base or size is unset (with the matching message), and
with both set it returns a snapshot of the current state. -/
theorem c5_build_missing_field (ops : List Op) (b : Builder)
    (hreach : applyOps initBuilder ops = b) :
    (b.base = none → build b = Except.error "Base is required") ∧
    (∀ base, b.base = some base → b.size = none →
      build b = Except.error "Size is required") ∧
    (∀ base size, b.base = some base → b.size = some size →
      ∃ o, build b = Except.ok o ∧ o.base = base ∧ o.size = size ∧
        o.milk = b.milk ∧ o.syrups = b.syrups ∧ o.sugar = b.sugar ∧
        o.iced = b.iced) ∧
    (∀ e, build b = Except.error e → b.base = none ∨ b.size = none) := by
  have hinv : BuilderInv b :=
    hreach ▸ builderInv_applyOps initBuilder ops builderInv_init
  obtain ⟨h1, h2, h3⟩ := hinv
  refine ⟨?_, ?_, ?_, ?_⟩
  · intro hb
    simp [build, hb]
  · intro base hb hs
    simp [build, hb, hs]
  · intro base size hb hs
    obtain ⟨p, hp, hbuild⟩ :=
      build_ok_of_keys b base size hb hs (h1 base hb) (h2 size hs) h3
    exact ⟨_, hbuild, rfl, rfl, rfl, rfl, rfl, rfl⟩
  · intro e he
    by_cases hb : b.base = none
    · exact Or.inl hb
    · obtain ⟨base, hbase⟩ := Option.ne_none_iff_exists'.mp hb
      by_cases hsz : b.size = none
      · exact Or.inr hsz
      · obtain ⟨size, hsize⟩ := Option.ne_none_iff_exists'.mp hsz
        obtain ⟨p, hp, hbuild⟩ :=
          build_ok_of_keys b base size hbase hsize (h1 base hbase)
            (h2 size hsize) h3
        rw [hbuild] at he
        cases he

/-- Witness for C5: espresso plus small builds a snapshot order. -/
theorem c5_witness :
    ∃ o, build bEspVal = Except.ok o ∧ o.base = "espresso" ∧
      o.size = "small" ∧ o.milk = bEspVal.milk ∧ o.syrups = bEspVal.syrups ∧
      o.sugar = bEspVal.sugar ∧ o.iced = bEspVal.iced :=
  (c5_build_missing_field [Op.opSetBase "espresso", Op.opSetSize "small"]
    bEspVal (by decide)).2.2.1 "espresso" "small" rfl rfl

/-- Claim C6: clearExtras never fails, resets milk, syrups, sugar and iced
to their defaults, leaves base and size unchanged, and an immediate build
prices base and size alone. -/
theorem c6_clear_extras_frame (b : Builder) (base size : String) (bp m : ℚ)
    (hbase : b.base = some base) (hsize : b.size = some size)
    (hkb : dictGet base BASE_PRICES = some bp)
    (hks : dictGet size SIZE_MULTIPLIERS = some m) :
    (clear_extras b).2 = none ∧
    (clear_extras b).1.milk = "none" ∧
    (clear_extras b).1.syrups = [] ∧
    (clear_extras b).1.sugar = 0 ∧
    (clear_extras b).1.iced = false ∧
    (clear_extras b).1.base = b.base ∧
    (clear_extras b).1.size = b.size ∧
    ∃ o, build (clear_extras b).1 = Except.ok o ∧ o.price = bp * m := by
  refine ⟨rfl, rfl, rfl, rfl, rfl, rfl, rfl, ?_⟩
  have hcp : calculate_price base size "none" [] false = some (bp * m) := by
    rw [calculate_price_eq base size "none" [] false bp m 0 hkb hks rfl]
    norm_num
  refine ⟨orderRecord base size "none" [] 0 false (bp * m), ?_, rfl⟩
  exact build_eq (clear_extras b).1 base size _ hbase hsize
    (mkCoffeeOrder_eq base size "none" [] 0 false (bp * m) hcp)

/-- Witness for C6: clearing the worked example then building gives the
latte-medium-only price 300 * 1.2. -/
theorem c6_witness :
    ∃ o, build (clear_extras exB2val).1 = Except.ok o ∧ o.price = 300 * (6/5) :=
  (c6_clear_extras_frame exB2val "latte" "medium" 300 (6/5)
    rfl rfl rfl rfl).2.2.2.2.2.2.2

/-- Claim C7: a builder call that raises leaves the builder state exactly as
it was (each setter validates before mutating; build mutates nothing). -/
theorem c7_failing_call_leaves_state (b : Builder) (op : Op) (e : String)
    (h : (applyOp b op).2 = some e) : (applyOp b op).1 = b := by
  cases op <;>
    simp only [applyOp, set_base, set_size, set_milk, add_syrup, set_sugar,
      set_iced, clear_extras] at h ⊢ <;>
    first
      | (split_ifs at h ⊢ <;> simp_all)
      | cases h

/-- Witness for C7: setSugar 6 fails and the builder is untouched. -/
theorem c7_witness : (applyOp bEspVal (Op.opSetSugar 6)).1 = bEspVal :=
  c7_failing_call_leaves_state bEspVal (Op.opSetSugar 6)
    "Sugar must be between 0 and 5" (by decide)

/-- Claim C8: an order returned by build is a snapshot: its fields, price
and description are functions of the builder state at that build alone
(independent of the quantified later call sequence), and a later build
reflects exactly the accumulated state. -/
theorem c8_order_snapshot_independent (b : Builder) (ops : List Op)
    (o1 o2 : CoffeeOrder)
    (h1 : build b = Except.ok o1)
    (h2 : build (applyOps b ops) = Except.ok o2) :
    (b.base = some o1.base ∧ b.size = some o1.size ∧ o1.milk = b.milk ∧
      o1.syrups = b.syrups ∧ o1.sugar = b.sugar ∧ o1.iced = b.iced ∧
      calculate_price o1.base o1.size o1.milk o1.syrups o1.iced =
        some o1.price ∧
      o1.description =
        generate_description o1.base o1.size o1.milk o1.syrups o1.sugar
          o1.iced) ∧
    ((applyOps b ops).base = some o2.base ∧
      (applyOps b ops).size = some o2.size ∧
      o2.milk = (applyOps b ops).milk ∧
      o2.syrups = (applyOps b ops).syrups ∧
      o2.sugar = (applyOps b ops).sugar ∧
      o2.iced = (applyOps b ops).iced ∧
      calculate_price o2.base o2.size o2.milk o2.syrups o2.iced =
        some o2.price ∧
      o2.description =
        generate_description o2.base o2.size o2.milk o2.syrups o2.sugar
          o2.iced) :=
  ⟨build_ok_spec b o1 h1, build_ok_spec (applyOps b ops) o2 h2⟩

/-- Witness for C8: building espresso, then flipping iced and rebuilding;
the first order keeps iced = false, the second reflects the new state. -/
theorem c8_witness :
    espOrder.iced = bEspVal.iced ∧
    espIcedOrder.iced = (applyOps bEspVal [Op.opSetIced true]).iced := by
  have h := c8_order_snapshot_independent bEspVal [Op.opSetIced true]
    espOrder espIcedOrder build_bEspVal
    (by rw [(by decide : applyOps bEspVal [Op.opSetIced true] = bEspIcedVal)]
        exact build_bEspIcedVal)
  exact ⟨h.1.2.2.2.2.2.1, h.2.2.2.2.2.2.1⟩

/-- Claim C9: addSyrup validates only the count, never the name: any string,
the empty string included, is accepted whenever the distinct count is below
the maximum, and it lands in the syrup set. -/
theorem c9_addSyrup_accepts_any_name (b : Builder) (name : String)
    (h : b.syrups.length < MAX_SYRUPS) :
    (add_syrup b name).2 = none ∧ name ∈ (add_syrup b name).1.syrups := by
  unfold add_syrup
  rw [if_neg (not_le.mpr h)]
  refine ⟨rfl, ?_⟩
  by_cases hm : name ∈ b.syrups <;> simp [hm]

/-- Witness for C9: the empty string is accepted as a syrup name. -/
theorem c9_witness :
    (add_syrup bEspVal "").2 = none ∧ "" ∈ (add_syrup bEspVal "").1.syrups :=
  c9_addSyrup_accepts_any_name bEspVal "" (by decide)

/-- Claim C10: on every builder reachable through the public calls with base
and size set, all three catalog lookups of the price computation are
defined, so build cannot hit the lookup-failure branch and succeeds. -/
theorem c10_catalog_lookups_total (ops : List Op) (b : Builder)
    (hreach : applyOps initBuilder ops = b) (base size : String)
    (hbase : b.base = some base) (hsize : b.size = some size) :
    (dictGet base BASE_PRICES).isSome ∧
    (dictGet size SIZE_MULTIPLIERS).isSome ∧
    (dictGet b.milk MILK_PRICES).isSome ∧
    (calculate_price base size b.milk b.syrups b.iced).isSome ∧
    ∃ o, build b = Except.ok o := by
  have hinv : BuilderInv b :=
    hreach ▸ builderInv_applyOps initBuilder ops builderInv_init
  obtain ⟨h1, h2, h3⟩ := hinv
  obtain ⟨p, hp, hbuild⟩ :=
    build_ok_of_keys b base size hbase hsize (h1 base hbase) (h2 size hsize) h3
  exact ⟨h1 base hbase, h2 size hsize, h3, by rw [hp]; rfl, ⟨_, hbuild⟩⟩

/-- Witness for C10 at the reachable espresso-small builder. -/
theorem c10_witness :
    (dictGet "espresso" BASE_PRICES).isSome ∧
    (dictGet "small" SIZE_MULTIPLIERS).isSome ∧
    (dictGet bEspVal.milk MILK_PRICES).isSome ∧
    (calculate_price "espresso" "small" bEspVal.milk bEspVal.syrups
      bEspVal.iced).isSome ∧
    ∃ o, build bEspVal = Except.ok o :=
  c10_catalog_lookups_total [Op.opSetBase "espresso", Op.opSetSize "small"]
    bEspVal (by decide) "espresso" "small" rfl rfl
